import Mathlib

/-!
Shallow embedding of the `mx-pulumi-repo` demo scripts and proofs about them.

The repository is a set of Pulumi demo programs.  Each program runs top to
bottom, resolves a handful of parameters (stack name, configuration store,
environment variables), declares a fixed set of cloud resources and assembles
an export map.  We embed the parameter resolution, the resource-declaration
sequence (display name, tag set, provider kind), the security-group rule
lists and the export maps as Lean functions, translated statement by
statement from the Python sources:

* `StacksDemo`        — `src/demo/01_stacks_demo.py`
* `ConfigDemo`        — `src/demo/03_configuration_demo.py`
* `PreviewUpdateDemo` — `src/demo/05_preview_update_demo.py`
* `AdvancedDemo`      — `src/pulumi-presentation/advanced_demo.py`

A run is modelled as an `Outcome`: the list of resource declarations issued
to the provisioning engine up to the point the program finished or aborted,
the export map assembled, and the error the program raised (if any).
-/

namespace PulumiRepo

/-- A security-group ingress rule as the demos build them: a dict with
`from_port`, `to_port`, `protocol`, `cidr_blocks` and an optional
`description`. -/
structure IngressRule where
  from_port : Nat
  to_port : Nat
  protocol : String
  cidr_blocks : List String
  description : Option String
  deriving DecidableEq, Repr

/-- One resource declaration handed to the external provisioning engine:
the provider resource kind, the display name, and the tag set. -/
structure ResourceDecl where
  kind : String
  name : String
  tags : List (String × String)
  deriving DecidableEq, Repr

/-- A value placed in the export map.  `output s` stands for a deferred
(resource-derived) value, identified by a description of its origin; it
becomes concrete only after the external engine provisions the resource. -/
inductive Value where
  | str : String → Value
  | int : Int → Value
  | bool : Bool → Value
  | list : List Value → Value
  | dict : List (String × Value) → Value
  | output : String → Value

/-- The observable outcome of one run of a demo program: the resource
declarations issued to the engine (in program order, up to the abort point
if the run failed), the export map, and the error raised, if any. -/
structure Outcome where
  resources : List ResourceDecl
  exports : List (String × Value)
  error : Option String

/-- Split a character list on a separator character, keeping empty pieces,
as Python `str.split(sep)` does; the result is never empty. -/
def splitOnChar (sep : Char) : List Char → List (List Char)
  | [] => [[]]
  | c :: rest =>
    if c = sep then [] :: splitOnChar sep rest
    else
      match splitOnChar sep rest with
      | [] => [[c]]
      | h :: t => (c :: h) :: t

/-- Python `str.strip()`: drop leading and trailing whitespace. -/
def pyStrip (s : String) : String :=
  ⟨((s.toList.dropWhile Char.isWhitespace).reverse.dropWhile
      Char.isWhitespace).reverse⟩

namespace StacksDemo

/-- One entry of `stack_configs` in `01_stacks_demo.py` (lines 25-44). -/
structure StackConfig where
  instance_type : String
  instance_count : Nat
  environment : String
  enable_monitoring : Bool
  deriving DecidableEq, Repr

/-- `stack_configs["dev"]` (01_stacks_demo.py lines 26-31). -/
def devConfig : StackConfig :=
  { instance_type := "t2.micro", instance_count := 1,
    environment := "development", enable_monitoring := false }

/-- `stack_configs` (01_stacks_demo.py lines 25-44). -/
def stack_configs : List (String × StackConfig) :=
  [("dev", devConfig),
   ("staging", { instance_type := "t3.small", instance_count := 2,
                 environment := "staging", enable_monitoring := true }),
   ("prod", { instance_type := "t3.medium", instance_count := 3,
              environment := "production", enable_monitoring := true })]

/-- `config = stack_configs.get(stack_name, stack_configs["dev"])`
(01_stacks_demo.py line 47): the profile for the current stack, defaulting
to the dev profile for unknown stack names. -/
def getConfig (stack_name : String) : StackConfig :=
  (stack_configs.lookup stack_name).getD devConfig

/-- The `ingress` list of the stack security group (01_stacks_demo.py
lines 112-115).  It is the same for every stack: HTTP (80) and SSH (22). -/
def sg_ingress : List IngressRule :=
  [{ from_port := 80, to_port := 80, protocol := "tcp",
     cidr_blocks := ["0.0.0.0/0"], description := none },
   { from_port := 22, to_port := 22, protocol := "tcp",
     cidr_blocks := ["0.0.0.0/0"], description := none }]

/-- The VPC declaration (01_stacks_demo.py lines 63-73). -/
def vpcDecl (s : String) (cfg : StackConfig) : ResourceDecl :=
  { kind := "aws:ec2:Vpc", name := s ++ "-vpc",
    tags := [("Name", s ++ "-vpc"), ("Environment", cfg.environment),
             ("Stack", s), ("ManagedBy", "Pulumi-Stacks-Demo")] }

/-- The internet gateway declaration (01_stacks_demo.py lines 76-80). -/
def igwDecl (s : String) : ResourceDecl :=
  { kind := "aws:ec2:InternetGateway", name := s ++ "-igw",
    tags := [("Name", s ++ "-igw"), ("Stack", s)] }

/-- The subnet declaration (01_stacks_demo.py lines 83-90). -/
def subnetDecl (s : String) : ResourceDecl :=
  { kind := "aws:ec2:Subnet", name := s ++ "-subnet",
    tags := [("Name", s ++ "-subnet"), ("Stack", s)] }

/-- The route table declaration (01_stacks_demo.py lines 93-98). -/
def rtDecl (s : String) : ResourceDecl :=
  { kind := "aws:ec2:RouteTable", name := s ++ "-rt",
    tags := [("Name", s ++ "-rt"), ("Stack", s)] }

/-- The route table association (01_stacks_demo.py lines 101-105); it
takes no tags. -/
def rtAssocDecl (s : String) : ResourceDecl :=
  { kind := "aws:ec2:RouteTableAssociation", name := s ++ "-rt-assoc", tags := [] }

/-- The security group declaration (01_stacks_demo.py lines 108-117). -/
def sgDecl (s : String) : ResourceDecl :=
  { kind := "aws:ec2:SecurityGroup", name := s ++ "-sg",
    tags := [("Name", s ++ "-sg"), ("Stack", s)] }

/-- The i-th instance declaration of the loop (01_stacks_demo.py
lines 121-169); `i` counts from 0 as in `range`, names use `i+1`. -/
def instanceDecl (s : String) (cfg : StackConfig) (i : Nat) : ResourceDecl :=
  { kind := "aws:ec2:Instance", name := s ++ "-instance-" ++ toString (i + 1),
    tags := [("Name", s ++ "-instance-" ++ toString (i + 1)),
             ("Environment", cfg.environment), ("Stack", s),
             ("InstanceNumber", toString (i + 1))] }

/-- The full sequence of resource declarations one run of
`01_stacks_demo.py` issues, in program order, as a function of the stack
name (the only input that varies between runs). -/
def declaredResources (stack_name : String) : List ResourceDecl :=
  let cfg := getConfig stack_name
  [vpcDecl stack_name cfg, igwDecl stack_name, subnetDecl stack_name,
   rtDecl stack_name, rtAssocDecl stack_name, sgDecl stack_name]
  ++ (List.range cfg.instance_count).map (instanceDecl stack_name cfg)

end StacksDemo

namespace ConfigDemo

/-- The configuration store as `03_configuration_demo.py` reads it: each
key is either set (`some`) or absent (`none`).  `db_password` and `api_key`
are the secret-marked keys. -/
structure Config where
  app_name : Option String
  instance_count : Option Int
  enable_https : Option Bool
  allowed_cidrs : Option String
  db_password : Option String
  api_key : Option String
  deriving DecidableEq, Repr

/-- The process environment variables the demo reads (lines 83-91). -/
structure Env where
  environment : Option String
  aws_region : Option String
  deployment_mode : Option String
  deriving DecidableEq, Repr

/-- `valid_environments` (03_configuration_demo.py line 104). -/
def valid_environments : List String :=
  ["development", "staging", "production", "demo"]

/-- `app_name`: `config.require("app_name")` wrapped in
`try/except pulumi.ConfigMissingError` which prints the error and falls
back to `"DefaultApp"` (lines 42-47).  The missing-key error is caught,
so resolution never aborts. -/
def resolvedAppName (cfg : Config) : String := cfg.app_name.getD "DefaultApp"

/-- `instance_count = config.get_int("instance_count", 1)` (line 50). -/
def resolvedCount (cfg : Config) : Int := cfg.instance_count.getD 1

/-- `enable_https = config.get_bool("enable_https", False)` (line 53). -/
def resolvedHttps (cfg : Config) : Bool := cfg.enable_https.getD false

/-- `cidr_list = [cidr.strip() for cidr in allowed_cidrs.split(",")]`
(line 58). -/
def cidr_list (allowed_cidrs : String) : List String :=
  (splitOnChar ',' allowed_cidrs.toList).map (fun l => pyStrip ⟨l⟩)

/-- `allowed_cidrs` with its default (line 57) fed through `cidr_list`. -/
def resolvedCidrs (cfg : Config) : List String :=
  cidr_list (cfg.allowed_cidrs.getD "10.0.0.0/8,172.16.0.0/12")

/-- `db_password`: `config.require_secret` with the `try/except` fallback
to `"default-insecure-password"` (lines 67-72). -/
def resolvedDbPassword (cfg : Config) : String :=
  cfg.db_password.getD "default-insecure-password"

/-- `api_key = config.get_secret("api_key", "default-api-key")` (line 75). -/
def resolvedApiKey (cfg : Config) : String := cfg.api_key.getD "default-api-key"

/-- `environment = os.environ.get("ENVIRONMENT", "development")` (line 83). -/
def resolvedEnvironment (e : Env) : String := e.environment.getD "development"

/-- `aws_region = os.environ.get("AWS_REGION", "us-east-1")` (line 86). -/
def resolvedRegion (e : Env) : String := e.aws_region.getD "us-east-1"

/-- `deployment_mode = os.environ.get("DEPLOYMENT_MODE", "standard")`
(line 90). -/
def resolvedMode (e : Env) : String := e.deployment_mode.getD "standard"

/-- The message of the `ValueError` raised by the instance-count
validation (line 100). -/
def countError (count : Int) : String :=
  "instance_count must be between 1 and 10, got " ++ toString count

/-- The message of the `ValueError` raised by the environment validation
(line 106), listing the allowed set and echoing the offending value. -/
def envError (environment : String) : String :=
  "Environment must be one of " ++ String.intercalate ", " valid_environments
    ++ ", got " ++ environment

/-- `sg_ingress` (lines 177-192): SSH restricted to the allowed CIDRs,
then HTTP always, then HTTPS appended only when `enable_https` is set. -/
def sg_ingress (cidrs : List String) (enableHttps : Bool) : List IngressRule :=
  [{ from_port := 22, to_port := 22, protocol := "tcp",
     cidr_blocks := cidrs, description := some "SSH" },
   { from_port := 80, to_port := 80, protocol := "tcp",
     cidr_blocks := ["0.0.0.0/0"], description := some "HTTP" }]
  ++ (if enableHttps then
        [{ from_port := 443, to_port := 443, protocol := "tcp",
           cidr_blocks := ["0.0.0.0/0"], description := some "HTTPS" }]
      else [])

/-- The VPC declaration (lines 122-132); `p` is the
`{app_name}-{environment}` name prefix used throughout. -/
def vpcDecl (p appName environment : String) : ResourceDecl :=
  { kind := "aws:ec2:Vpc", name := p ++ "-vpc",
    tags := [("Name", p ++ "-vpc"), ("Application", appName),
             ("Environment", environment), ("ManagedBy", "Pulumi-Config-Demo")] }

/-- The internet gateway declaration (lines 135-143). -/
def igwDecl (p appName environment : String) : ResourceDecl :=
  { kind := "aws:ec2:InternetGateway", name := p ++ "-igw",
    tags := [("Name", p ++ "-igw"), ("Application", appName),
             ("Environment", environment)] }

/-- The subnet declaration (lines 145-156). -/
def subnetDecl (p appName environment : String) : ResourceDecl :=
  { kind := "aws:ec2:Subnet", name := p ++ "-subnet",
    tags := [("Name", p ++ "-subnet"), ("Application", appName),
             ("Environment", environment)] }

/-- The route table declaration (lines 159-168). -/
def rtDecl (p appName environment : String) : ResourceDecl :=
  { kind := "aws:ec2:RouteTable", name := p ++ "-rt",
    tags := [("Name", p ++ "-rt"), ("Application", appName),
             ("Environment", environment)] }

/-- The route table association (lines 170-174); no tags. -/
def rtAssocDecl (p : String) : ResourceDecl :=
  { kind := "aws:ec2:RouteTableAssociation", name := p ++ "-rt-assoc", tags := [] }

/-- The security group declaration (lines 194-206). -/
def sgDecl (p appName environment : String) : ResourceDecl :=
  { kind := "aws:ec2:SecurityGroup", name := p ++ "-sg",
    tags := [("Name", p ++ "-sg"), ("Application", appName),
             ("Environment", environment)] }

/-- The i-th instance declaration of the loop (lines 301-315);
`i` counts from 0 as in `range`, names and tags use `i+1`. -/
def instanceDecl (p appName environment : String) (i : Nat) : ResourceDecl :=
  { kind := "aws:ec2:Instance", name := p ++ "-instance-" ++ toString (i + 1),
    tags := [("Name", p ++ "-instance-" ++ toString (i + 1)),
             ("Application", appName), ("Environment", environment),
             ("InstanceNumber", toString (i + 1)), ("ConfigDemo", "true")] }

/-- The `secrets_configured` export value (lines 337-341): boolean markers
only, never the secret values themselves. -/
def secretsConfiguredValue : Value :=
  .dict [("db_password_configured", .bool true),
         ("api_key_configured", .bool true),
         ("note", .str "Secret values are encrypted and not shown in outputs")]

/-- The export map assembled at lines 323-358, as a function of the
resolved non-secret parameters.  Resource-derived entries (instance ids,
public IPs, URLs) are deferred `Value.output` values. -/
def mkExports (appName environment : String) (count : Int) (https : Bool)
    (cidrs : List String) (awsRegion mode : String) : List (String × Value) :=
  [("demo_type", .str "Configuration Demo"),
   ("configuration_used", .dict
      [("app_name", .str appName), ("environment", .str environment),
       ("instance_count", .int count), ("enable_https", .bool https),
       ("allowed_cidrs", .list (cidrs.map .str)),
       ("aws_region", .str awsRegion), ("deployment_mode", .str mode)]),
   ("secrets_configured", secretsConfiguredValue),
   ("instances", .dict
      [("count", .int count),
       ("instance_ids", .list ((List.range count.toNat).map
          (fun i => .output ("instance-" ++ toString (i + 1) ++ "-id")))),
       ("public_ips", .list ((List.range count.toNat).map
          (fun i => .output ("instance-" ++ toString (i + 1) ++ "-public-ip")))),
       ("urls", .list ((List.range count.toNat).map
          (fun i => .output ("instance-" ++ toString (i + 1) ++ "-url"))))]),
   ("demo_commands", .dict
      [("view_config", .str "pulumi config"),
       ("set_regular_config", .str "pulumi config set app_name MyNewApp"),
       ("set_secret_config", .str "pulumi config set --secret db_password new-secret"),
       ("remove_config", .str "pulumi config rm app_name"),
       ("copy_config", .str "pulumi config cp <source-stack> <target-stack>")])]

/-- One run of `03_configuration_demo.py`: resolve parameters (lines
42-91), validate (lines 99-106, instance count first, then environment;
a failed validation raises before any resource is declared), then declare
the resources in program order (lines 122-316) and assemble the exports
(lines 323-358). -/
def run (cfg : Config) (env : Env) : Outcome :=
  let appName := resolvedAppName cfg
  let count := resolvedCount cfg
  let https := resolvedHttps cfg
  let cidrs := resolvedCidrs cfg
  let environment := resolvedEnvironment env
  if count < 1 ∨ count > 10 then
    { resources := [], exports := [], error := some (countError count) }
  else if environment ∉ valid_environments then
    { resources := [], exports := [], error := some (envError environment) }
  else
    let p := appName ++ "-" ++ environment
    { resources :=
        [vpcDecl p appName environment, igwDecl p appName environment,
         subnetDecl p appName environment, rtDecl p appName environment,
         rtAssocDecl p, sgDecl p appName environment]
        ++ (List.range count.toNat).map (instanceDecl p appName environment),
      exports := mkExports appName environment count https cidrs
        (resolvedRegion env) (resolvedMode env),
      error := none }

end ConfigDemo

namespace PreviewUpdateDemo

/-- Digits of a decimal literal read as a natural number; `none` when the
character list is empty or contains a non-digit. -/
def digitsVal (l : List Char) : Option Nat :=
  if l ≠ [] ∧ l.all Char.isDigit then
    some (l.foldl (fun a c => 10 * a + (c.toNat - 48)) 0)
  else none

/-- Model of Python `float(deployment_version)` (05_preview_update_demo.py
lines 126 and 137) on the plain unsigned decimal literals the demo uses
(`"1.0"`, `"2.0"`, ...): the exact rational value `whole + frac / 10 ^ k`
built with `mkRat`, or `none` when the string is not such a literal (in
the source, a `ValueError`). -/
def parseVersion (s : String) : Option ℚ :=
  match splitOnChar '.' s.toList with
  | [w] => (digitsVal w).map (fun n => mkRat n 1)
  | [w, f] =>
    match digitsVal w, digitsVal f with
    | some a, some b => some (mkRat (a * 10 ^ f.length + b) (10 ^ f.length))
    | _, _ => none
  | _ => none

/-- The HTTP rule `base_ingress` starts from (lines 115-123). -/
def httpRule : IngressRule :=
  { from_port := 80, to_port := 80, protocol := "tcp",
    cidr_blocks := ["0.0.0.0/0"], description := some "HTTP Access" }

/-- The SSH rule appended when `float(deployment_version) >= 2.0`
(lines 126-134). -/
def sshRule : IngressRule :=
  { from_port := 22, to_port := 22, protocol := "tcp",
    cidr_blocks := ["0.0.0.0/0"], description := some "SSH Access - Added in v2.0" }

/-- The HTTPS rule appended when `float(deployment_version) >= 3.0`
(lines 137-145). -/
def httpsRule : IngressRule :=
  { from_port := 443, to_port := 443, protocol := "tcp",
    cidr_blocks := ["0.0.0.0/0"], description := some "HTTPS Access - Added in v3.0" }

/-- `base_ingress` as a function of the parsed deployment version
(lines 115-145): HTTP always, SSH appended at version 2.0, HTTPS appended
at version 3.0 — the appends never remove or reorder earlier rules. -/
def base_ingress (v : ℚ) : List IngressRule :=
  [httpRule] ++ (if 2 ≤ v then [sshRule] else [])
    ++ (if 3 ≤ v then [httpsRule] else [])

/-- The five resource declarations issued before `float(deployment_version)`
is first evaluated: VPC (line 53), internet gateway (line 67), subnet
(line 78), route table (line 92) and its association (line 103).  Their
tags carry the unparsed `deployment_version` string. -/
def preResources (version : String) : List ResourceDecl :=
  [{ kind := "aws:ec2:Vpc", name := "preview-update-vpc",
     tags := [("Name", "preview-update-vpc"), ("Purpose", "PreviewUpdateDemo"),
              ("Version", version), ("LastUpdate", "TBD")] },
   { kind := "aws:ec2:InternetGateway", name := "preview-update-igw",
     tags := [("Name", "preview-update-igw"), ("Purpose", "PreviewUpdateDemo"),
              ("Version", version)] },
   { kind := "aws:ec2:Subnet", name := "preview-update-subnet",
     tags := [("Name", "preview-update-subnet"), ("Purpose", "PreviewUpdateDemo"),
              ("Version", version)] },
   { kind := "aws:ec2:RouteTable", name := "preview-update-rt",
     tags := [("Name", "preview-update-rt"), ("Purpose", "PreviewUpdateDemo"),
              ("Version", version)] },
   { kind := "aws:ec2:RouteTableAssociation", name := "preview-update-rt-assoc",
     tags := [] }]

/-- The security group declaration (lines 147-165). -/
def sgDecl (version : String) (ingress : List IngressRule) : ResourceDecl :=
  { kind := "aws:ec2:SecurityGroup", name := "preview-update-sg",
    tags := [("Name", "preview-update-sg"), ("Purpose", "PreviewUpdateDemo"),
             ("Version", version), ("RulesCount", toString ingress.length)] }

/-- The S3 bucket declaration (lines 170-177). -/
def bucketDecl (version : String) : ResourceDecl :=
  { kind := "aws:s3:Bucket", name := "preview-update-demo-bucket",
    tags := [("Name", "preview-update-demo-bucket"),
             ("Purpose", "PreviewUpdateDemo"), ("Version", version)] }

/-- The bucket policy declared only when `enable_monitoring` is set
(lines 180-200); no tags. -/
def bucketPolicyDecl : ResourceDecl :=
  { kind := "aws:s3:BucketPolicy", name := "preview-update-bucket-policy",
    tags := [] }

/-- The EC2 instance declaration (lines 208-330). -/
def instanceDecl (version : String) : ResourceDecl :=
  { kind := "aws:ec2:Instance", name := "preview-update-instance",
    tags := [("Name", "preview-update-instance"), ("Purpose", "PreviewUpdateDemo"),
             ("Version", version), ("DeploymentType", "preview-update-demo")] }

/-- The export map assembled at lines 339-398, as a function of the
version string, the monitoring flag and the parsed version. -/
def mkExports (version : String) (monitoring : Bool) (v : ℚ)
    (ingress : List IngressRule) : List (String × Value) :=
  [("demo_type", .str "Preview & Update Workflow Demo"),
   ("deployment_info", .dict
      [("version", .str version), ("monitoring_enabled", .bool monitoring),
       ("security_rules_count", .int ingress.length),
       ("timestamp", .str "deployment-time-will-be-set-on-apply")]),
   ("workflow_commands", .dict
      [("preview_changes", .str "pulumi preview"),
       ("apply_changes", .str "pulumi up"),
       ("view_history", .str "pulumi history"),
       ("refresh_state", .str "pulumi refresh"),
       ("watch_mode", .str "pulumi watch"),
       ("cancel_deployment", .str "pulumi cancel"),
       ("destroy_preview", .str "pulumi destroy --preview"),
       ("destroy_apply", .str "pulumi destroy")]),
   ("version_upgrade_demo", .dict
      [("current_version", .str version),
       ("upgrade_to_v2", .dict
          [("command", .str "pulumi config set deployment_version 2.0"),
           ("change", .str "Adds SSH access (port 22)"),
           ("preview", .str "pulumi preview"), ("apply", .str "pulumi up")]),
       ("upgrade_to_v3", .dict
          [("command", .str "pulumi config set deployment_version 3.0"),
           ("change", .str "Adds HTTPS access (port 443)"),
           ("preview", .str "pulumi preview"), ("apply", .str "pulumi up")]),
       ("enable_monitoring", .dict
          [("command", .str "pulumi config set enable_monitoring true"),
           ("change", .str "Adds S3 bucket policy for monitoring"),
           ("preview", .str "pulumi preview"), ("apply", .str "pulumi up")])]),
   ("demo_access", .dict
      [("instance_url", .output "instance-public-ip-url"),
       ("ssh_command", if 2 ≤ v then .output "instance-ssh-command"
                       else .str "SSH not available in v1.0"),
       ("s3_bucket", .output "s3-bucket-id")]),
   ("safety_features", .dict
      [("preview_first", .str "Always run pulumi preview before pulumi up"),
       ("confirmation_required", .str "Destructive changes require confirmation"),
       ("atomic_updates", .str "Updates are atomic - all succeed or all fail"),
       ("rollback_available", .str "Use pulumi history and target specific updates"),
       ("state_consistency", .str "State is always consistent with reality")])]

/-- One run of `05_preview_update_demo.py`: read `deployment_version`
(default `"1.0"`, line 34) and `enable_monitoring` (default `False`,
line 35); declare VPC, gateway, subnet, route table and association
(lines 53-107); then evaluate `float(deployment_version)` (line 126) —
a malformed value raises `ValueError` there, aborting the run after those
five declarations and before any export; otherwise build `base_ingress`,
declare the security group, the bucket, the bucket policy when monitoring
is on, and the instance, and assemble the exports. -/
def run (deploymentVersionCfg : Option String) (enableMonitoringCfg : Option Bool) :
    Outcome :=
  let version := deploymentVersionCfg.getD "1.0"
  let monitoring := enableMonitoringCfg.getD false
  let pre := preResources version
  match parseVersion version with
  | none =>
    { resources := pre, exports := [],
      error := some ("could not convert string to float: " ++ version) }
  | some v =>
    let ingress := base_ingress v
    { resources := pre ++ [sgDecl version ingress, bucketDecl version]
        ++ (if monitoring then [bucketPolicyDecl] else [])
        ++ [instanceDecl version],
      exports := mkExports version monitoring v ingress,
      error := none }

end PreviewUpdateDemo

namespace AdvancedDemo

/-- Python truthiness fallback `x or d` on an optional string read from the
configuration store (`advanced_demo.py` line 23): `None` and the empty
string are falsy. -/
def pyOrStr : Option String → String → String
  | some s, d => if s = "" then d else s
  | none, d => d

/-- Python `x or d` on an optional integer (line 24): `None` and `0` are
falsy. -/
def pyOrInt : Option Int → Int → Int
  | some n, d => if n = 0 then d else n
  | none, d => d

/-- Python `x or d` on an optional boolean (lines 25-27): `None` and
`False` are falsy, so `config.get_bool(k) or True` is always `True`. -/
def pyOrBool : Option Bool → Bool → Bool
  | some b, d => if b then b else d
  | none, d => d

/-- Python `str` of a boolean, as used in tag values. -/
def pyStr (b : Bool) : String := if b then "True" else "False"

/-- The configuration store as `advanced_demo.py` reads it (lines 22-27). -/
structure Config where
  environment : Option String
  instance_count : Option Int
  enable_monitoring : Option Bool
  enable_backup : Option Bool
  cost_optimization : Option Bool
  deriving DecidableEq, Repr

/-- One entry of the `configs` table inside `get_environment_config`
(lines 43-71); `cost_optimized` is the key the function adds afterwards. -/
structure EnvConfig where
  instance_type : String
  min_size : Nat
  max_size : Nat
  enable_detailed_monitoring : Bool
  backup_retention : Nat
  multi_az : Bool
  allowed_cidr : String
  cost_optimized : Bool
  deriving DecidableEq, Repr

/-- `configs["dev"]` (lines 44-52). -/
def devEnvConfig : EnvConfig :=
  { instance_type := "t3.micro", min_size := 1, max_size := 2,
    enable_detailed_monitoring := false, backup_retention := 7,
    multi_az := false, allowed_cidr := "0.0.0.0/0", cost_optimized := false }

/-- The `configs` table of `get_environment_config` (lines 43-71). -/
def envConfigs : List (String × EnvConfig) :=
  [("dev", devEnvConfig),
   ("staging", { instance_type := "t3.small", min_size := 2, max_size := 4,
                 enable_detailed_monitoring := true, backup_retention := 14,
                 multi_az := true, allowed_cidr := "10.0.0.0/8",
                 cost_optimized := false }),
   ("production", { instance_type := "t3.medium", min_size := 3, max_size := 10,
                    enable_detailed_monitoring := true, backup_retention := 30,
                    multi_az := true, allowed_cidr := "10.0.0.0/8",
                    cost_optimized := false })]

/-- `get_environment_config(env)` (lines 39-85): look the label up with
fallback to the dev entry, then, when cost optimization is on and the
environment is not production, downgrade the instance type one class and
mark the config cost-optimized. -/
def get_environment_config (cost_optimization : Bool) (env : String) : EnvConfig :=
  let base := (envConfigs.lookup env).getD devEnvConfig
  if cost_optimization ∧ env ≠ "production" then
    let it := if base.instance_type = "t3.medium" then "t3.small"
              else if base.instance_type = "t3.small" then "t3.micro"
              else base.instance_type
    { base with instance_type := it, cost_optimized := true }
  else
    { base with cost_optimized := false }

/-- One entry of `base_security_rules` (lines 177-200). -/
structure SecRule where
  port : Nat
  protocol : String
  description : String
  cidr_blocks : Option (List String)
  deriving DecidableEq, Repr

/-- `base_security_rules` (lines 177-200): HTTP and HTTPS always, SSH with
the environment's allowed CIDR, Prometheus and Grafana when monitoring is
enabled, and a health-check port when more than two instances are
configured. -/
def base_security_rules (allowedCidr : String) (monitoring : Bool)
    (count : Int) : List SecRule :=
  [{ port := 80, protocol := "tcp", description := "HTTP", cidr_blocks := none },
   { port := 443, protocol := "tcp", description := "HTTPS", cidr_blocks := none }]
  ++ [{ port := 22, protocol := "tcp", description := "SSH",
        cidr_blocks := some [allowedCidr] }]
  ++ (if monitoring then
        [{ port := 9090, protocol := "tcp", description := "Prometheus",
           cidr_blocks := none },
         { port := 3000, protocol := "tcp", description := "Grafana",
           cidr_blocks := none }]
      else [])
  ++ (if count > 2 then
        [{ port := 8080, protocol := "tcp",
           description := "App Load Balancer Health Check", cidr_blocks := none }]
      else [])

/-- `len(routes)` (lines 143-156): the default route, plus one more in
production. -/
def routesCount (environment : String) : Nat :=
  if environment = "production" then 2 else 1

/-- The VPC declaration (lines 91-103). -/
def vpcDecl (environment : String) (envCfg : EnvConfig)
    (regionName accountId : String) : ResourceDecl :=
  { kind := "aws:ec2:Vpc", name := "advanced-demo-vpc",
    tags := [("Name", "advanced-demo-vpc-" ++ environment),
             ("Environment", environment), ("ManagedBy", "Pulumi-Advanced-Demo"),
             ("CostOptimized", pyStr envCfg.cost_optimized),
             ("Region", regionName), ("Account", accountId)] }

/-- The i-th subnet declaration of the loop (lines 114-131). -/
def subnetDecl (environment : String) (selectedAzs : List String) (i : Nat) :
    ResourceDecl :=
  let az := selectedAzs.getD i ""
  let cidr := "10.100." ++ toString (i + 1) ++ ".0/24"
  { kind := "aws:ec2:Subnet", name := "advanced-subnet-" ++ toString i,
    tags := [("Name", "advanced-subnet-" ++ toString i ++ "-" ++ az),
             ("Environment", environment), ("AZ", az),
             ("SubnetType", "Public"), ("CIDR", cidr)] }

/-- The internet gateway declaration (lines 134-140). -/
def igwDecl (environment : String) : ResourceDecl :=
  { kind := "aws:ec2:InternetGateway", name := "advanced-igw",
    tags := [("Name", "advanced-igw-" ++ environment),
             ("Environment", environment)] }

/-- The route table declaration (lines 158-166). -/
def rtDecl (environment : String) : ResourceDecl :=
  { kind := "aws:ec2:RouteTable", name := "advanced-rt",
    tags := [("Name", "advanced-rt-" ++ environment),
             ("Environment", environment),
             ("RouteCount", toString (routesCount environment))] }

/-- The i-th route table association (lines 169-174); no tags. -/
def assocDecl (i : Nat) : ResourceDecl :=
  { kind := "aws:ec2:RouteTableAssociation",
    name := "advanced-rt-assoc-" ++ toString i, tags := [] }

/-- The security group declaration (lines 204-228). -/
def sgDecl (environment : String) (monitoring : Bool) (count : Int)
    (envCfg : EnvConfig) : ResourceDecl :=
  { kind := "aws:ec2:SecurityGroup", name := "advanced-sg",
    tags := [("Name", "advanced-sg-" ++ environment),
             ("Environment", environment),
             ("RuleCount", toString (base_security_rules envCfg.allowed_cidr
                monitoring count).length),
             ("MonitoringEnabled", pyStr monitoring)] }

/-- The i-th instance declaration of the loop (lines 264-283); the loop
index `i` starts at 0 and the display name uses `i` itself. -/
def instanceDecl (environment : String) (envCfg : EnvConfig) (monitoring : Bool)
    (selectedAzs : List String) (i : Nat) : ResourceDecl :=
  let az := selectedAzs.getD (i % selectedAzs.length) ""
  let mon := monitoring && envCfg.enable_detailed_monitoring
  { kind := "aws:ec2:Instance", name := "advanced-instance-" ++ toString i,
    tags := [("Name", "advanced-instance-" ++ toString i),
             ("Environment", environment), ("InstanceNumber", toString (i + 1)),
             ("AZ", az), ("ManagedBy", "Pulumi"),
             ("InstanceType", envCfg.instance_type),
             ("MonitoringEnabled", pyStr mon),
             ("CostOptimized", pyStr envCfg.cost_optimized)] }

/-- The resource declarations issued before the instance loop, in program
order: VPC, the subnets, internet gateway, route table, the route table
associations, and the security group (lines 91-228). -/
def preDecls (environment : String) (count : Int) (monitoring : Bool)
    (envCfg : EnvConfig) (selectedAzs : List String)
    (regionName accountId : String) : List ResourceDecl :=
  [vpcDecl environment envCfg regionName accountId]
  ++ (List.range selectedAzs.length).map (subnetDecl environment selectedAzs)
  ++ [igwDecl environment, rtDecl environment]
  ++ (List.range selectedAzs.length).map assocDecl
  ++ [sgDecl environment monitoring count envCfg]

/-- Module-level statements of `advanced_demo.py` as the interpreter
executes them: a resource declaration, a top-level `def` (which binds the
function name from that point on), a call to a module-level function by
name (a `NameError` when the name is not yet bound), or a `pulumi.export`. -/
inductive Stmt where
  | declare : ResourceDecl → Stmt
  | defineFun : String → Stmt
  | callFun : String → Stmt
  | exportKV : String → Value → Stmt

/-- Interpreter state: the module-level function names bound so far, the
resource declarations issued so far, and the exports produced so far. -/
structure St where
  defined : List String
  resources : List ResourceDecl
  exports : List (String × Value)

/-- One statement step.  Calling a name that is not yet bound raises the
`NameError` that aborts the module. -/
def step (s : St) : Stmt → Except String St
  | .declare r => .ok { s with resources := s.resources ++ [r] }
  | .defineFun n => .ok { s with defined := s.defined ++ [n] }
  | .callFun n =>
    if n ∈ s.defined then .ok s
    else .error ("NameError: name " ++ n ++ " is not defined")
  | .exportKV k v => .ok { s with exports := s.exports ++ [(k, v)] }

/-- Run a statement list to completion or to the first error; on error the
outcome keeps exactly the resources and exports issued before the failing
statement. -/
def exec (s : St) : List Stmt → Outcome
  | [] => { resources := s.resources, exports := s.exports, error := none }
  | st :: rest =>
    match step s st with
    | .ok s2 => exec s2 rest
    | .error e =>
      { resources := s.resources, exports := s.exports, error := some e }

/-- Rendering of an `EnvConfig` into an exported value, as in the
`environment_comparison` export (lines 582-585). -/
def envConfigValue (e : EnvConfig) : Value :=
  .dict [("instance_type", .str e.instance_type),
         ("min_size", .int e.min_size), ("max_size", .int e.max_size),
         ("enable_detailed_monitoring", .bool e.enable_detailed_monitoring),
         ("backup_retention", .int e.backup_retention),
         ("multi_az", .bool e.multi_az),
         ("allowed_cidr", .str e.allowed_cidr),
         ("cost_optimized", .bool e.cost_optimized)]

/-- The ALB declaration inside the `instance_count > 1` block
(lines 466-476). -/
def albDecl (environment : String) (count : Int) : ResourceDecl :=
  { kind := "aws:lb:LoadBalancer", name := "advanced-alb",
    tags := [("Name", "advanced-alb-" ++ environment),
             ("Environment", environment), ("InstanceCount", toString count)] }

/-- The target group declaration (lines 479-499). -/
def tgDecl (environment : String) : ResourceDecl :=
  { kind := "aws:lb:TargetGroup", name := "advanced-tg",
    tags := [("Name", "advanced-tg-" ++ environment),
             ("Environment", environment)] }

/-- The i-th target group attachment (lines 503-509); no tags. -/
def tgAttachmentDecl (i : Nat) : ResourceDecl :=
  { kind := "aws:lb:TargetGroupAttachment",
    name := "advanced-tg-attachment-" ++ toString i, tags := [] }

/-- The ALB listener declaration (lines 512-520); no tags. -/
def listenerDecl : ResourceDecl :=
  { kind := "aws:lb:Listener", name := "advanced-listener", tags := [] }

/-- The statements of the load-balancer block (lines 462-528): ALB, target
group, one attachment per instance, listener and the `load_balancer_info`
export. -/
def albStmts (environment : String) (count : Int) : List Stmt :=
  [Stmt.declare (albDecl environment count), Stmt.declare (tgDecl environment)]
  ++ (List.range count.toNat).map (fun i => Stmt.declare (tgAttachmentDecl i))
  ++ [Stmt.declare listenerDecl,
      Stmt.exportKV "load_balancer_info" (.dict
        [("dns_name", .output "alb-dns-name"), ("url", .output "alb-url"),
         ("zone_id", .output "alb-zone-id"), ("target_count", .int count)])]

/-- The statements from the `calculate_monthly_cost` call site (line 532)
to the end of the module: the call precedes the `def` at line 614, the
summary exports sit between them, and `demo_summary` follows the `def`. -/
def tailStmts (environment : String) (count : Int)
    (monitoring backup costOpt : Bool) (envCfg : EnvConfig) : List Stmt :=
  [Stmt.callFun "calculate_monthly_cost",
   Stmt.exportKV "advanced_deployment_summary" (.dict
     [("deployment_metadata", .dict
        [("environment", .str environment), ("pulumi_version", .str "3.x")]),
      ("infrastructure_stats", .dict
        [("total_instances", .int count),
         ("security_group_rules", .int (base_security_rules envCfg.allowed_cidr
            monitoring count).length)]),
      ("configuration", .dict
        [("environment_config", envConfigValue envCfg),
         ("monitoring_enabled", .bool monitoring),
         ("backup_enabled", .bool backup),
         ("cost_optimization", .bool costOpt),
         ("multi_az_deployment", .bool envCfg.multi_az)]),
      ("estimated_costs", .dict
        [("instance_type", .str envCfg.instance_type),
         ("cost_optimized", .bool envCfg.cost_optimized)])]),
   Stmt.exportKV "instance_details" (.list ((List.range count.toNat).map
     (fun i => .dict [("instance_number", .int (i + 1)),
                      ("name", .str ("advanced-instance-" ++ toString i)),
                      ("public_ip", .output ("instance-" ++ toString i ++ "-ip")),
                      ("instance_id", .output ("instance-" ++ toString i ++ "-id"))]))),
   Stmt.exportKV "environment_comparison" (.dict
     [("dev", envConfigValue (get_environment_config costOpt "dev")),
      ("staging", envConfigValue (get_environment_config costOpt "staging")),
      ("production", envConfigValue (get_environment_config costOpt "production"))]),
   Stmt.exportKV "pulumi_advantages_demonstrated" (.dict
     [("programming_constructs", .list []),
      ("infrastructure_capabilities", .list []),
      ("developer_experience", .list [])]),
   Stmt.defineFun "calculate_monthly_cost",
   Stmt.exportKV "demo_summary" (.dict
     [("title", .str "Advanced Pulumi Features Demonstration")])]

/-- The module-level statement sequence of `advanced_demo.py` for one run:
`get_environment_config` is defined (line 39) before it is called
(line 87); the network resources are declared (lines 91-228); the instance
loop (lines 250-284) calls `generate_advanced_user_data` before declaring
each instance, but that name is only bound by the `def` at line 286 —
after the loop; `calculate_monthly_cost` is likewise called (line 532)
before its `def` (line 614). -/
def program (cfg : Config) (azNames : List String)
    (regionName accountId : String) : List Stmt :=
  let environment := pyOrStr cfg.environment "demo"
  let count := pyOrInt cfg.instance_count 3
  let monitoring := pyOrBool cfg.enable_monitoring true
  let backup := pyOrBool cfg.enable_backup false
  let costOpt := pyOrBool cfg.cost_optimization true
  let envCfg := get_environment_config costOpt environment
  let selectedAzs := if envCfg.multi_az then azNames.take 3 else azNames.take 1
  [Stmt.defineFun "get_environment_config", Stmt.callFun "get_environment_config"]
  ++ (preDecls environment count monitoring envCfg selectedAzs
       regionName accountId).map Stmt.declare
  ++ (List.range count.toNat).flatMap (fun i =>
       [Stmt.callFun "generate_advanced_user_data",
        Stmt.declare (instanceDecl environment envCfg monitoring selectedAzs i)])
  ++ [Stmt.defineFun "generate_advanced_user_data"]
  ++ (if count > 1 then albStmts environment count else [])
  ++ tailStmts environment count monitoring backup costOpt envCfg

/-- One run of `advanced_demo.py`: execute the module statements from an
empty interpreter state.  `azNames`, `regionName` and `accountId` are the
values the AWS data sources return. -/
def run (cfg : Config) (azNames : List String)
    (regionName accountId : String) : Outcome :=
  exec { defined := [], resources := [], exports := [] }
    (program cfg azNames regionName accountId)

end AdvancedDemo

/-! ## Claim theorems -/

/-- C2 counterexample: in the stacks demo a "dev" run does resolve to one
`t2.micro` instance, but the security-group rule list is `[HTTP 80, SSH 22]`
for every stack — it is not "port 80 only": the SSH rule on port 22 is a
member, refuting the claimed rule set. -/
theorem stacks_dev_rules_counterexample :
    (StacksDemo.getConfig "dev").instance_count = 1 ∧
    (StacksDemo.getConfig "dev").instance_type = "t2.micro" ∧
    StacksDemo.sg_ingress.map IngressRule.from_port = [80, 22] ∧
    ¬ (∀ r ∈ StacksDemo.sg_ingress, r.from_port = 80) := by decide

/-- C2 (amended): a "dev" run of the stacks demo resolves to exactly one
instance of the smallest class `t2.micro`, and the ingress rule set
attached to the network is exactly HTTP (port 80) and SSH (port 22). -/
theorem stacks_dev_profile :
    StacksDemo.getConfig "dev"
      = { instance_type := "t2.micro", instance_count := 1,
          environment := "development", enable_monitoring := false } ∧
    StacksDemo.sg_ingress.map IngressRule.from_port = [80, 22] := by decide

/-- C9 counterexample: a "staging" run of the stacks demo resolves to
instance count 2 with the monitoring flag on, but the ingress rule list
contains no monitoring port (neither 9090 nor 3000) — the rule set is not
`{80, 22, monitoring ports}`. -/
theorem stacks_staging_rules_counterexample :
    (StacksDemo.getConfig "staging").instance_count = 2 ∧
    (StacksDemo.getConfig "staging").enable_monitoring = true ∧
    (∀ r ∈ StacksDemo.sg_ingress, r.from_port ≠ 9090 ∧ r.from_port ≠ 3000) := by
  decide

/-- C9 (amended): a "staging" run of the stacks demo resolves to instance
count 2 (type `t3.small`, monitoring flag on), and the ingress rule set is
exactly `{port 80, port 22}` — the monitoring flag adds no ingress rule in
this demo. -/
theorem stacks_staging_profile :
    StacksDemo.getConfig "staging"
      = { instance_type := "t3.small", instance_count := 2,
          environment := "staging", enable_monitoring := true } ∧
    StacksDemo.sg_ingress.map IngressRule.from_port = [80, 22] := by decide

/-- C6: for every stack name, the resolved profile's instance count lies
in [1, 10]; any name other than the three supported labels resolves to the
dev profile, so resolution is total and deterministic — exactly one
profile per run. -/
theorem stacks_profile_resolution (s : String) :
    (1 ≤ (StacksDemo.getConfig s).instance_count
      ∧ (StacksDemo.getConfig s).instance_count ≤ 10)
    ∧ (s ∉ ["dev", "staging", "prod"] →
        StacksDemo.getConfig s = StacksDemo.devConfig) := by
  by_cases h1 : s = "dev"
  · subst h1; exact ⟨by decide, fun h => by simp at h⟩
  by_cases h2 : s = "staging"
  · subst h2; exact ⟨by decide, fun h => by simp at h⟩
  by_cases h3 : s = "prod"
  · subst h3; exact ⟨by decide, fun h => by simp at h⟩
  have e1 : (s == "dev") = false := beq_eq_false_iff_ne.mpr h1
  have e2 : (s == "staging") = false := beq_eq_false_iff_ne.mpr h2
  have e3 : (s == "prod") = false := beq_eq_false_iff_ne.mpr h3
  have hd : StacksDemo.getConfig s = StacksDemo.devConfig := by
    simp [StacksDemo.getConfig, StacksDemo.stack_configs, List.lookup, e1, e2, e3]
  exact ⟨by rw [hd]; decide, fun _ => hd⟩

/-- C6 witness: the unsupported label "qa" falls back to the dev profile,
and the staging profile's count is within range. -/
theorem stacks_profile_resolution_witness :
    StacksDemo.getConfig "qa" = StacksDemo.devConfig ∧
    (1 ≤ (StacksDemo.getConfig "staging").instance_count
      ∧ (StacksDemo.getConfig "staging").instance_count ≤ 10) :=
  ⟨(stacks_profile_resolution "qa").2 (by decide),
   (stacks_profile_resolution "staging").1⟩

/-- C1 counterexample: a run of the configuration demo with `app_name`
absent from every source does not abort — the `ConfigMissingError` is
caught, `app_name` falls back to `"DefaultApp"`, and the run declares the
VPC, subnet, security group and an instance. -/
theorem config_missing_appname_counterexample :
    (ConfigDemo.run ⟨none, none, none, none, none, none⟩ ⟨none, none, none⟩).error
      = none ∧
    (ConfigDemo.run ⟨none, none, none, none, none, none⟩
        ⟨none, none, none⟩).resources.map ResourceDecl.kind
      = ["aws:ec2:Vpc", "aws:ec2:InternetGateway", "aws:ec2:Subnet",
         "aws:ec2:RouteTable", "aws:ec2:RouteTableAssociation",
         "aws:ec2:SecurityGroup", "aws:ec2:Instance"] := by
  exact ⟨rfl, rfl⟩

/-- Helper: an out-of-range resolved instance count makes the
configuration demo abort with the echoing message before any resource is
declared. -/
theorem configDemo_run_invalid_count (cfg : ConfigDemo.Config)
    (env : ConfigDemo.Env)
    (h : ConfigDemo.resolvedCount cfg < 1 ∨ ConfigDemo.resolvedCount cfg > 10) :
    ConfigDemo.run cfg env
      = { resources := [], exports := [],
          error := some (ConfigDemo.countError (ConfigDemo.resolvedCount cfg)) } := by
  simp only [ConfigDemo.run]
  rw [if_pos h]

/-- Helper: with a valid count but an environment label outside the
allowed set, the configuration demo aborts with the set-listing message
before any resource is declared. -/
theorem configDemo_run_invalid_env (cfg : ConfigDemo.Config)
    (env : ConfigDemo.Env)
    (hc : ¬ (ConfigDemo.resolvedCount cfg < 1 ∨ ConfigDemo.resolvedCount cfg > 10))
    (he : ConfigDemo.resolvedEnvironment env ∉ ConfigDemo.valid_environments) :
    ConfigDemo.run cfg env
      = { resources := [], exports := [],
          error := some (ConfigDemo.envError (ConfigDemo.resolvedEnvironment env)) } := by
  simp only [ConfigDemo.run]
  rw [if_neg hc, if_pos he]

/-- Helper: the export map always carries the boolean-marker
`secrets_configured` entry, whatever the resolved parameters were. -/
theorem configDemo_lookup_secrets (a e : String) (c : Int) (hb : Bool)
    (cs : List String) (r m : String) :
    (ConfigDemo.mkExports a e c hb cs r m).lookup "secrets_configured"
      = some ConfigDemo.secretsConfiguredValue := rfl

/-- C5: in the configuration demo, a resolved instance count outside
[1, 10] aborts the run with a message echoing the offending value, and
(count being valid) an environment label outside
{development, staging, production, demo} aborts with a message listing
the allowed set; in both cases no resource is declared. -/
theorem config_validation_aborts (cfg : ConfigDemo.Config)
    (env : ConfigDemo.Env) :
    ((ConfigDemo.resolvedCount cfg < 1 ∨ ConfigDemo.resolvedCount cfg > 10) →
      ConfigDemo.run cfg env
        = { resources := [], exports := [],
            error := some (ConfigDemo.countError (ConfigDemo.resolvedCount cfg)) })
    ∧ (1 ≤ ConfigDemo.resolvedCount cfg → ConfigDemo.resolvedCount cfg ≤ 10 →
       ConfigDemo.resolvedEnvironment env ∉ ConfigDemo.valid_environments →
      ConfigDemo.run cfg env
        = { resources := [], exports := [],
            error := some (ConfigDemo.envError (ConfigDemo.resolvedEnvironment env)) }) := by
  refine ⟨configDemo_run_invalid_count cfg env, fun h1 h2 h3 => ?_⟩
  exact configDemo_run_invalid_env cfg env (by omega) h3

/-- C5 witness: instance count 0 aborts echoing 0; environment "qa"
aborts listing the allowed set; neither run declares a resource. -/
theorem config_validation_aborts_witness :
    ConfigDemo.run ⟨none, some 0, none, none, none, none⟩ ⟨none, none, none⟩
      = { resources := [], exports := [],
          error := some (ConfigDemo.countError 0) } ∧
    ConfigDemo.run ⟨none, none, none, none, none, none⟩ ⟨some "qa", none, none⟩
      = { resources := [], exports := [],
          error := some (ConfigDemo.envError "qa") } :=
  ⟨(config_validation_aborts _ _).1 (by decide),
   (config_validation_aborts _ _).2 (by decide) (by decide) (by decide)⟩

/-- C1 (amended): with `app_name` absent from every source the missing-key
error is caught, `app_name` resolves to `"DefaultApp"`, and (validation
permitting) the run continues: it succeeds and declares the VPC — named
with the fallback — and the instances; the abort the spec describes does
not happen. -/
theorem config_missing_appname_fallback (cfg : ConfigDemo.Config)
    (env : ConfigDemo.Env) (happ : cfg.app_name = none)
    (h1 : 1 ≤ ConfigDemo.resolvedCount cfg)
    (h2 : ConfigDemo.resolvedCount cfg ≤ 10)
    (henv : ConfigDemo.resolvedEnvironment env ∈ ConfigDemo.valid_environments) :
    (ConfigDemo.run cfg env).error = none ∧
    (ConfigDemo.run cfg env).resources.head?.map ResourceDecl.name
      = some ("DefaultApp" ++ "-" ++ ConfigDemo.resolvedEnvironment env ++ "-vpc") ∧
    "aws:ec2:Instance" ∈ (ConfigDemo.run cfg env).resources.map ResourceDecl.kind := by
  have hc : ¬ (ConfigDemo.resolvedCount cfg < 1 ∨ ConfigDemo.resolvedCount cfg > 10) := by
    omega
  have he : ¬ ConfigDemo.resolvedEnvironment env ∉ ConfigDemo.valid_environments :=
    not_not_intro henv
  have ha : ConfigDemo.resolvedAppName cfg = "DefaultApp" := by
    simp [ConfigDemo.resolvedAppName, happ]
  simp only [ConfigDemo.run]
  rw [if_neg hc, if_neg he]
  refine ⟨rfl, ?_, ?_⟩
  · simp [ConfigDemo.vpcDecl, ha]
  · have h0 : (0 : Nat) ∈ List.range (ConfigDemo.resolvedCount cfg).toNat := by
      rw [List.mem_range]; omega
    exact List.mem_map.mpr ⟨ConfigDemo.instanceDecl _ _ _ 0,
      List.mem_append_right _ (List.mem_map.mpr ⟨0, h0, rfl⟩), rfl⟩

/-- C1 witness: with every config key unset (in particular `app_name`)
the run succeeds, the first declared resource is the `DefaultApp`-named
VPC, and an instance declaration is reached. -/
theorem config_missing_appname_fallback_witness :
    (ConfigDemo.run ⟨none, none, none, none, none, none⟩
        ⟨none, none, none⟩).error = none ∧
    (ConfigDemo.run ⟨none, none, none, none, none, none⟩
        ⟨none, none, none⟩).resources.head?.map ResourceDecl.name
      = some ("DefaultApp" ++ "-" ++
          ConfigDemo.resolvedEnvironment ⟨none, none, none⟩ ++ "-vpc") ∧
    "aws:ec2:Instance" ∈ (ConfigDemo.run ⟨none, none, none, none, none, none⟩
        ⟨none, none, none⟩).resources.map ResourceDecl.kind :=
  config_missing_appname_fallback ⟨none, none, none, none, none, none⟩
    ⟨none, none, none⟩ rfl (by decide) (by decide) (by decide)

/-- C4: the export map of the configuration demo does not depend on the
secret-marked parameters — two runs differing only in `db_password` and
`api_key` export the same map — and every successful run's exports carry
only the boolean `secrets_configured` markers for them. -/
theorem config_secret_noninterference (cfg : ConfigDemo.Config)
    (env : ConfigDemo.Env) (p₁ k₁ p₂ k₂ : Option String) :
    (ConfigDemo.run { cfg with db_password := p₁, api_key := k₁ } env).exports
      = (ConfigDemo.run { cfg with db_password := p₂, api_key := k₂ } env).exports
    ∧ ((ConfigDemo.run cfg env).error = none →
        (ConfigDemo.run cfg env).exports.lookup "secrets_configured"
          = some ConfigDemo.secretsConfiguredValue) := by
  refine ⟨rfl, fun h => ?_⟩
  by_cases hc : ConfigDemo.resolvedCount cfg < 1 ∨ ConfigDemo.resolvedCount cfg > 10
  · rw [configDemo_run_invalid_count cfg env hc] at h
    simp at h
  by_cases he : ConfigDemo.resolvedEnvironment env ∉ ConfigDemo.valid_environments
  · rw [configDemo_run_invalid_env cfg env hc he] at h
    simp at h
  · simp only [ConfigDemo.run]
    rw [if_neg hc, if_neg he]
    exact configDemo_lookup_secrets _ _ _ _ _ _ _

/-- C4 witness: at a concrete configuration, two choices of secret values
yield the same export map, and the successful run's exports contain the
boolean marker entry. -/
theorem config_secret_noninterference_witness :
    (ConfigDemo.run ⟨some "MyDemoApp", some 2, some true, none,
        some "hunter2", some "key-one"⟩ ⟨some "demo", none, none⟩).exports
      = (ConfigDemo.run ⟨some "MyDemoApp", some 2, some true, none,
          some "s3cr3t", some "key-two"⟩ ⟨some "demo", none, none⟩).exports
    ∧ (ConfigDemo.run ⟨some "MyDemoApp", some 2, some true, none, none, none⟩
        ⟨some "demo", none, none⟩).exports.lookup "secrets_configured"
      = some ConfigDemo.secretsConfiguredValue := by
  have h := config_secret_noninterference
    ⟨some "MyDemoApp", some 2, some true, none, none, none⟩
    ⟨some "demo", none, none⟩
    (some "hunter2") (some "key-one") (some "s3cr3t") (some "key-two")
  exact ⟨h.1, h.2 rfl⟩

/-- C7: resource display names and tag sets are pure functions of the run
inputs — two runs of the stacks demo with the same stack name, or of the
configuration demo with the same configuration and environment, declare
identical (name, tag set) sequences. -/
theorem naming_deterministic (s₁ s₂ : String)
    (cfg₁ cfg₂ : ConfigDemo.Config) (env₁ env₂ : ConfigDemo.Env)
    (hs : s₁ = s₂) (hc : cfg₁ = cfg₂) (he : env₁ = env₂) :
    StacksDemo.declaredResources s₁ = StacksDemo.declaredResources s₂ ∧
    (ConfigDemo.run cfg₁ env₁).resources.map (fun r => (r.name, r.tags))
      = (ConfigDemo.run cfg₂ env₂).resources.map (fun r => (r.name, r.tags)) := by
  subst hs; subst hc; subst he
  exact ⟨rfl, rfl⟩

/-- C7 witness: instantiated at the "dev" stack and a concrete
configuration. -/
theorem naming_deterministic_witness :
    StacksDemo.declaredResources "dev" = StacksDemo.declaredResources "dev" ∧
    (ConfigDemo.run ⟨some "App", none, none, none, none, none⟩
        ⟨none, none, none⟩).resources.map (fun r => (r.name, r.tags))
      = (ConfigDemo.run ⟨some "App", none, none, none, none, none⟩
          ⟨none, none, none⟩).resources.map (fun r => (r.name, r.tags)) :=
  naming_deterministic "dev" "dev" ⟨some "App", none, none, none, none, none⟩
    ⟨some "App", none, none, none, none, none⟩ ⟨none, none, none⟩
    ⟨none, none, none⟩ rfl rfl rfl

/-- C8 counterexample: in the preview/update demo a malformed
`deployment_version` makes `float()` raise, but only after the VPC,
gateway, subnet, route table and association were already declared — at
the abort point the set of submitted declarations has five entries, not
zero. -/
theorem preview_partial_graph_counterexample :
    (PreviewUpdateDemo.run (some "not-a-number") none).error
      = some "could not convert string to float: not-a-number" ∧
    (PreviewUpdateDemo.run (some "not-a-number") none).resources.length = 5 ∧
    (PreviewUpdateDemo.run (some "not-a-number") none).resources ≠ [] := by
  exact ⟨rfl, rfl, by decide⟩

/-- C8 (amended): a construction failure aborts the run at the failure
point with no exports and no further declarations, but the declarations
issued before the failing statement stand: with an unparsable
`deployment_version`, the run aborts at the `float()` call having already
declared the VPC, internet gateway, subnet, route table and association —
the submitted prefix, not an empty set. -/
theorem preview_abort_point (s : String) (m : Option Bool)
    (h : PreviewUpdateDemo.parseVersion s = none) :
    (PreviewUpdateDemo.run (some s) m).error
      = some ("could not convert string to float: " ++ s) ∧
    (PreviewUpdateDemo.run (some s) m).resources
      = PreviewUpdateDemo.preResources s ∧
    (PreviewUpdateDemo.run (some s) m).resources.map ResourceDecl.kind
      = ["aws:ec2:Vpc", "aws:ec2:InternetGateway", "aws:ec2:Subnet",
         "aws:ec2:RouteTable", "aws:ec2:RouteTableAssociation"] ∧
    (PreviewUpdateDemo.run (some s) m).exports = [] := by
  simp only [PreviewUpdateDemo.run, Option.getD_some, h]
  refine ⟨trivial, trivial, ?_, trivial⟩
  simp [PreviewUpdateDemo.preResources]

/-- C8 witness: instantiated at the malformed version string "abc". -/
theorem preview_abort_point_witness :
    (PreviewUpdateDemo.run (some "abc") none).error
      = some ("could not convert string to float: " ++ "abc") ∧
    (PreviewUpdateDemo.run (some "abc") none).resources
      = PreviewUpdateDemo.preResources "abc" ∧
    (PreviewUpdateDemo.run (some "abc") none).resources.map ResourceDecl.kind
      = ["aws:ec2:Vpc", "aws:ec2:InternetGateway", "aws:ec2:Subnet",
         "aws:ec2:RouteTable", "aws:ec2:RouteTableAssociation"] ∧
    (PreviewUpdateDemo.run (some "abc") none).exports = [] :=
  preview_abort_point "abc" none (by decide)

/-- C3: the access-policy rule lists are monotone under flags and version
raises — for any two parsed versions `v₁ ≤ v₂` the preview/update rule
list at `v₂` extends the one at `v₁` without changing earlier rules; in
the configuration demo enabling `enable_https` appends to the rule list
built with the flag off; in the preview/update demo enabling
`enable_monitoring` only inserts the bucket-policy resource, leaving every
other declaration in place; and raising the version from "1.0" to "2.0"
adds exactly the SSH rule. -/
theorem ingress_monotone :
    (∀ v₁ v₂ : ℚ, v₁ ≤ v₂ →
      ∃ t, PreviewUpdateDemo.base_ingress v₂
            = PreviewUpdateDemo.base_ingress v₁ ++ t)
    ∧ (∀ cidrs : List String, ∃ t,
        ConfigDemo.sg_ingress cidrs true = ConfigDemo.sg_ingress cidrs false ++ t)
    ∧ (∀ vs : String, ∀ v : ℚ, PreviewUpdateDemo.parseVersion vs = some v →
        ∃ pre post,
          (PreviewUpdateDemo.run (some vs) (some false)).resources = pre ++ post ∧
          (PreviewUpdateDemo.run (some vs) (some true)).resources
            = pre ++ [PreviewUpdateDemo.bucketPolicyDecl] ++ post)
    ∧ PreviewUpdateDemo.parseVersion "1.0" = some 1
    ∧ PreviewUpdateDemo.parseVersion "2.0" = some 2
    ∧ PreviewUpdateDemo.base_ingress 2
        = PreviewUpdateDemo.base_ingress 1 ++ [PreviewUpdateDemo.sshRule] := by
  refine ⟨?_, ?_, ?_, by decide, by decide, by decide⟩
  · intro v₁ v₂ h
    unfold PreviewUpdateDemo.base_ingress
    by_cases h2 : (2 : ℚ) ≤ v₁
    · have h2' : (2 : ℚ) ≤ v₂ := h2.trans h
      by_cases h3 : (3 : ℚ) ≤ v₁
      · have h3' : (3 : ℚ) ≤ v₂ := h3.trans h
        exact ⟨[], by simp [h2, h2', h3, h3']⟩
      · by_cases h3' : (3 : ℚ) ≤ v₂
        · exact ⟨[PreviewUpdateDemo.httpsRule], by simp [h2, h2', h3, h3']⟩
        · exact ⟨[], by simp [h2, h2', h3, h3']⟩
    · have h3 : ¬ (3 : ℚ) ≤ v₁ := fun hh => h2 (le_trans (by norm_num) hh)
      by_cases h2' : (2 : ℚ) ≤ v₂
      · by_cases h3' : (3 : ℚ) ≤ v₂
        · exact ⟨[PreviewUpdateDemo.sshRule, PreviewUpdateDemo.httpsRule],
            by simp [h2, h2', h3, h3']⟩
        · exact ⟨[PreviewUpdateDemo.sshRule], by simp [h2, h2', h3, h3']⟩
      · have h3' : ¬ (3 : ℚ) ≤ v₂ := fun hh => h2' (le_trans (by norm_num) hh)
        exact ⟨[], by simp [h2, h2', h3, h3']⟩
  · intro cidrs
    exact ⟨[{ from_port := 443, to_port := 443, protocol := "tcp",
              cidr_blocks := ["0.0.0.0/0"], description := some "HTTPS" }],
           by simp [ConfigDemo.sg_ingress]⟩
  · intro vs v hv
    refine ⟨PreviewUpdateDemo.preResources vs
        ++ [PreviewUpdateDemo.sgDecl vs (PreviewUpdateDemo.base_ingress v),
            PreviewUpdateDemo.bucketDecl vs],
      [PreviewUpdateDemo.instanceDecl vs], ?_, ?_⟩
    · simp only [PreviewUpdateDemo.run, Option.getD_some, hv]
      simp
    · simp only [PreviewUpdateDemo.run, Option.getD_some, hv]
      simp

/-- Helper: executing a block of resource declarations never fails and
only accumulates the declarations. -/
theorem advanced_exec_declares (rs : List ResourceDecl) (s : AdvancedDemo.St)
    (rest : List AdvancedDemo.Stmt) :
    AdvancedDemo.exec s (rs.map AdvancedDemo.Stmt.declare ++ rest)
      = AdvancedDemo.exec { s with resources := s.resources ++ rs } rest := by
  induction rs generalizing s with
  | nil => simp
  | cons r t ih =>
    have e1 : AdvancedDemo.exec s ((r :: t).map AdvancedDemo.Stmt.declare ++ rest)
        = AdvancedDemo.exec { s with resources := s.resources ++ [r] }
            (t.map AdvancedDemo.Stmt.declare ++ rest) := rfl
    rw [e1, ih]
    simp [List.append_assoc]

/-- Helper: the prelude of `advanced_demo.py` — the `def` of
`get_environment_config`, its call, and the network declarations — runs
without error, binding exactly that one name. -/
theorem advanced_exec_prelude (pre : List ResourceDecl)
    (rest : List AdvancedDemo.Stmt) :
    AdvancedDemo.exec ⟨[], [], []⟩
        (AdvancedDemo.Stmt.defineFun "get_environment_config"
          :: AdvancedDemo.Stmt.callFun "get_environment_config"
          :: (pre.map AdvancedDemo.Stmt.declare ++ rest))
      = AdvancedDemo.exec ⟨["get_environment_config"], pre, []⟩ rest := by
  have e1 : AdvancedDemo.exec ⟨[], [], []⟩
      (AdvancedDemo.Stmt.defineFun "get_environment_config"
        :: AdvancedDemo.Stmt.callFun "get_environment_config"
        :: (pre.map AdvancedDemo.Stmt.declare ++ rest))
      = AdvancedDemo.exec ⟨["get_environment_config"], [], []⟩
          (pre.map AdvancedDemo.Stmt.declare ++ rest) := rfl
  rw [e1, advanced_exec_declares]
  rfl

/-- Helper: with only `get_environment_config` bound, the loop's call to
`generate_advanced_user_data` aborts execution with the `NameError`,
freezing the resources and exports accumulated so far. -/
theorem advanced_exec_loop_error (rs : List ResourceDecl)
    (ex : List (String × Value)) (rest : List AdvancedDemo.Stmt) :
    AdvancedDemo.exec ⟨["get_environment_config"], rs, ex⟩
        (AdvancedDemo.Stmt.callFun "generate_advanced_user_data" :: rest)
      = { resources := rs, exports := ex,
          error := some "NameError: name generate_advanced_user_data is not defined" } :=
  rfl

/-- Helper: none of the declarations issued before the instance loop of
`advanced_demo.py` is a compute instance. -/
theorem advanced_preDecls_no_instance (environment : String) (count : Int)
    (monitoring : Bool) (envCfg : AdvancedDemo.EnvConfig)
    (selectedAzs : List String) (regionName accountId : String) :
    ∀ r ∈ AdvancedDemo.preDecls environment count monitoring envCfg
        selectedAzs regionName accountId, r.kind ≠ "aws:ec2:Instance" := by
  intro r hr
  simp only [AdvancedDemo.preDecls, List.mem_append, List.mem_cons,
    List.mem_singleton, List.mem_map, List.not_mem_nil, or_false] at hr
  rcases hr with ((((rfl | ⟨i, -, rfl⟩) | (rfl | rfl)) | ⟨i, -, rfl⟩) | rfl) <;>
    simp [AdvancedDemo.vpcDecl, AdvancedDemo.subnetDecl, AdvancedDemo.igwDecl,
      AdvancedDemo.rtDecl, AdvancedDemo.assocDecl, AdvancedDemo.sgDecl]

/-- C10: for every configuration resolving to instance count at least 1,
`advanced_demo.py` aborts with a `NameError` on the first loop iteration —
`generate_advanced_user_data` is called before its `def` executes — so no
compute instance is declared and no export is produced. -/
theorem advanced_name_error (cfg : AdvancedDemo.Config) (azNames : List String)
    (regionName accountId : String)
    (hcount : 1 ≤ AdvancedDemo.pyOrInt cfg.instance_count 3) :
    (AdvancedDemo.run cfg azNames regionName accountId).error
      = some "NameError: name generate_advanced_user_data is not defined" ∧
    (AdvancedDemo.run cfg azNames regionName accountId).exports = [] ∧
    ∀ r ∈ (AdvancedDemo.run cfg azNames regionName accountId).resources,
      r.kind ≠ "aws:ec2:Instance" := by
  obtain ⟨m, hm⟩ : ∃ m, (AdvancedDemo.pyOrInt cfg.instance_count 3).toNat = m + 1 :=
    ⟨(AdvancedDemo.pyOrInt cfg.instance_count 3).toNat - 1, by omega⟩
  have hrun : AdvancedDemo.run cfg azNames regionName accountId
      = { resources := AdvancedDemo.preDecls
            (AdvancedDemo.pyOrStr cfg.environment "demo")
            (AdvancedDemo.pyOrInt cfg.instance_count 3)
            (AdvancedDemo.pyOrBool cfg.enable_monitoring true)
            (AdvancedDemo.get_environment_config
              (AdvancedDemo.pyOrBool cfg.cost_optimization true)
              (AdvancedDemo.pyOrStr cfg.environment "demo"))
            (if (AdvancedDemo.get_environment_config
                  (AdvancedDemo.pyOrBool cfg.cost_optimization true)
                  (AdvancedDemo.pyOrStr cfg.environment "demo")).multi_az
             then azNames.take 3 else azNames.take 1)
            regionName accountId,
          exports := [],
          error := some "NameError: name generate_advanced_user_data is not defined" } := by
    simp only [AdvancedDemo.run, AdvancedDemo.program]
    rw [hm, List.range_succ_eq_map, List.flatMap_cons]
    simp only [List.cons_append, List.append_assoc, List.nil_append]
    rw [advanced_exec_prelude, advanced_exec_loop_error]
  rw [hrun]
  exact ⟨rfl, rfl, advanced_preDecls_no_instance _ _ _ _ _ _ _⟩

/-- C10 witness: with every configuration key unset the resolved instance
count is 3, and the run aborts with the `NameError`, declaring no
instance and exporting nothing. -/
theorem advanced_name_error_witness :
    (AdvancedDemo.run ⟨none, none, none, none, none⟩ ["us-east-1a"]
        "us-east-1" "123456789012").error
      = some "NameError: name generate_advanced_user_data is not defined" ∧
    (AdvancedDemo.run ⟨none, none, none, none, none⟩ ["us-east-1a"]
        "us-east-1" "123456789012").exports = [] ∧
    ∀ r ∈ (AdvancedDemo.run ⟨none, none, none, none, none⟩ ["us-east-1a"]
        "us-east-1" "123456789012").resources,
      r.kind ≠ "aws:ec2:Instance" :=
  advanced_name_error ⟨none, none, none, none, none⟩ ["us-east-1a"]
    "us-east-1" "123456789012" (by decide)

/-- C3 witness: the rule list at version 2 extends the one at version 1;
the https flag appends to the configuration demo's rule list; the
monitoring flag inserts exactly the bucket policy at version "2.0". -/
theorem ingress_monotone_witness :
    (∃ t, PreviewUpdateDemo.base_ingress 2
            = PreviewUpdateDemo.base_ingress 1 ++ t)
    ∧ (∃ t, ConfigDemo.sg_ingress ["10.0.0.0/8"] true
          = ConfigDemo.sg_ingress ["10.0.0.0/8"] false ++ t)
    ∧ (∃ pre post,
        (PreviewUpdateDemo.run (some "2.0") (some false)).resources = pre ++ post ∧
        (PreviewUpdateDemo.run (some "2.0") (some true)).resources
          = pre ++ [PreviewUpdateDemo.bucketPolicyDecl] ++ post) :=
  ⟨ingress_monotone.1 1 2 (by norm_num),
   ingress_monotone.2.1 ["10.0.0.0/8"],
   ingress_monotone.2.2.1 "2.0" 2 (by decide)⟩

end PulumiRepo
